import Mathlib

set_option maxHeartbeats 1000000

/-!
Shallow embedding of `amazon-ecs-agent-connection-monitoring`:
`src/code/lambda_event_bridge_monitor.py` (the Lambda `handler`) and
`src/code/commonlib/commonlib.py` (class `ECSNode`, class `SNSTopic`).

External AWS calls (boto3) are modelled as an environment of functions
returning `Except String`, where the error string stands for the upstream
error detail (the `{code} : {message}` text interpolated by the Python
`except ClientError` arms).  Every externally visible action of the code
(ECS describe-container-instances, EC2 describe-instances, SSM
describe-instance-information, ECS describe-clusters tag fetch, SNS
publish, and the metric-generating warning log line) is recorded in an
event trace so that claims about which calls are or are not issued can be
stated and proved.
-/

namespace EcsMonitor

/-- A decoded JSON scalar, as produced by `json.loads` for the fields of the
payload.  The handler tests `payload["detail"]["agentConnected"] is not False`,
so the only thing that matters is whether the value is exactly the JSON
boolean `false`; the other constructors model any other decoded value. -/
inductive JVal where
  | jbool : Bool → JVal
  | jstr : String → JVal
  | jnull : JVal
  | jnum : Int → JVal
  deriving DecidableEq, Repr

/-- One ECS cluster tag entry, an element of the `tags` list returned by
`describe_clusters(..., include=["TAGS"])`. -/
structure Tag where
  key : String
  value : String
  deriving DecidableEq, Repr

/-- The decoded body of one SQS record: the fields of the EventBridge event
that the handler reads (`source`, `detail-type`, and inside `detail`:
`containerInstanceArn`, `clusterArn`, `agentConnected`, `status`). -/
structure Payload where
  source : String
  detailType : String
  containerInstanceArn : String
  clusterArn : String
  agentConnected : JVal
  status : String
  deriving DecidableEq, Repr

/-- One raw SQS record of the batch.  `malformed msg` stands for a record
whose `body` is absent or unparsable, where `json.loads` raises with message
`msg`; `emptyPayload` stands for a body decoding to JSON `null`, for which
the handler raises its own `ValueError`; `payload p` is a decoded payload. -/
inductive RawRecord where
  | malformed : String → RawRecord
  | emptyPayload : RawRecord
  | payload : Payload → RawRecord
  deriving DecidableEq, Repr

/-- Trace of the externally visible actions performed while processing a
batch, in order of occurrence. -/
inductive Event where
  | ecsQuery : String → String → Event
  | stateQuery : String → Event
  | pingQuery : String → Event
  | tagQuery : String → Event
  | notif : String → String → String → Event
  | metricLog : String → String → Event
  deriving DecidableEq, Repr

/-- The AWS environment: the responses the boto3 calls would return.
An `Except.error e` models a `ClientError` whose interpolated detail text
is `e`. -/
structure AwsEnv where
  describeContainerInstance : String → String → Except String (String × Bool)
  describeInstanceState : String → Except String String
  describePingStatus : String → Except String String
  describeClusterTags : String → Except String (List Tag)
  snsPublish : String → String → String → Except String Unit

/-- The environment-variable configuration read at the top of `handler`:
`monitoringTagKeyName`, `monitoringTagKeyValue` (both `os.environ.get(_, None)`,
hence `Option`), `checkAllClusters` (string, default "false") and
`sendEmailNotification` (the SNS topic destination). -/
structure Config where
  tag_key : Option String
  tag_value : Option String
  check_all_clusters : String
  email_notification : String
  deriving DecidableEq, Repr

/-- Python `str.lower()` restricted to the ASCII range, which is all the
handler compares against (`'true'`, `'yes'`). -/
def pyLower (s : String) : String := String.mk (s.data.map Char.toLower)

/-- The handler's monitor-all test: `check_all_clusters.lower() in ['true', 'yes']`. -/
def monitorAll (cfg : Config) : Bool :=
  pyLower cfg.check_all_clusters == "true" || pyLower cfg.check_all_clusters == "yes"

/-- The code-point ranges of Unicode general category Nd (decimal digits),
which is exactly what Python's `\d` matches in a `str` pattern without
`re.ASCII` (Unicode 14.0, the table shipped with CPython 3.11). -/
def ndRanges : List (Nat × Nat) :=
  [(0x30, 0x39), (0x660, 0x669), (0x6F0, 0x6F9), (0x7C0, 0x7C9),
   (0x966, 0x96F), (0x9E6, 0x9EF), (0xA66, 0xA6F), (0xAE6, 0xAEF),
   (0xB66, 0xB6F), (0xBE6, 0xBEF), (0xC66, 0xC6F), (0xCE6, 0xCEF),
   (0xD66, 0xD6F), (0xDE6, 0xDEF), (0xE50, 0xE59), (0xED0, 0xED9),
   (0xF20, 0xF29), (0x1040, 0x1049), (0x1090, 0x1099), (0x17E0, 0x17E9),
   (0x1810, 0x1819), (0x1946, 0x194F), (0x19D0, 0x19D9), (0x1A80, 0x1A89),
   (0x1A90, 0x1A99), (0x1B50, 0x1B59), (0x1BB0, 0x1BB9), (0x1C40, 0x1C49),
   (0x1C50, 0x1C59), (0xA620, 0xA629), (0xA8D0, 0xA8D9), (0xA900, 0xA909),
   (0xA9D0, 0xA9D9), (0xA9F0, 0xA9F9), (0xAA50, 0xAA59), (0xABF0, 0xABF9),
   (0xFF10, 0xFF19), (0x104A0, 0x104A9), (0x10D30, 0x10D39), (0x11066, 0x1106F),
   (0x110F0, 0x110F9), (0x11136, 0x1113F), (0x111D0, 0x111D9), (0x112F0, 0x112F9),
   (0x11450, 0x11459), (0x114D0, 0x114D9), (0x11650, 0x11659), (0x116C0, 0x116C9),
   (0x11730, 0x11739), (0x118E0, 0x118E9), (0x11950, 0x11959), (0x11C50, 0x11C59),
   (0x11D50, 0x11D59), (0x11DA0, 0x11DA9), (0x16A60, 0x16A69), (0x16AC0, 0x16AC9),
   (0x16B50, 0x16B59), (0x1D7CE, 0x1D7FF), (0x1E140, 0x1E149), (0x1E2F0, 0x1E2F9),
   (0x1E950, 0x1E959), (0x1FBF0, 0x1FBF9)]

/-- Python's `\d` character class: any Unicode decimal digit. -/
def pyIsDigit (c : Char) : Bool :=
  ndRanges.any fun r => decide (r.1 ≤ c.toNat) && decide (c.toNat ≤ r.2)

/-- One character of the regex class `[a-f\d]` of
`re.compile(r"^i-(?:[a-f\d]{8}|[a-f\d]{17})$")`: a Unicode decimal digit or
a lowercase hex letter `a`-`f`. -/
def isHexLowerDigit (c : Char) : Bool :=
  pyIsDigit c || (decide ('a' ≤ c) && decide (c ≤ 'f'))

/-- Python's `$` (without `re.MULTILINE`) matches at the end of the string
and also just before one trailing newline, so the anchored pattern may
ignore one final `\n` of the subject. -/
def dollarStrip (cs : List Char) : List Char :=
  if cs.getLast? = some '\n' then cs.dropLast else cs

/-- The body `i-(?:[a-f\d]{8}|[a-f\d]{17})` on a character list: the literal
prefix `i-` followed by the alternation of exactly 8 or exactly 17
characters of class `[a-f\d]`, consuming the whole list. -/
def ec2IdBody : List Char → Bool
  | c1 :: c2 :: rest =>
      (c1 == 'i') && (c2 == '-')
        && ((rest.length == 8 && rest.all isHexLowerDigit)
              || (rest.length == 17 && rest.all isHexLowerDigit))
  | _ => false

/-- The anchored pattern `^i-(?:[a-f\d]{8}|[a-f\d]{17})$` under `re.match`:
the body must span the whole string, where `$` may additionally ignore one
trailing newline. -/
def ec2IdPattern (cs : List Char) : Bool := ec2IdBody (dollarStrip cs)

/-- Code-side classification of a platform node identifier
(`commonlib.py:72`): does the compiled regex match the string? -/
def isEc2InstanceId (s : String) : Bool := ec2IdPattern s.toList

/-- Error wrapper of `ECSNode.fetch_ec2_details`: both `except` arms raise
`Exception("Error: An error occurred when fetching instance details - ...")`
with the upstream detail interpolated. -/
def wrapFetchError (e : String) : String :=
  "Error: An error occurred when fetching instance details - " ++ e

/-- Model of `ECSNode.fetch_ec2_details` (`commonlib.py:50-99`): resolve the
container instance via ECS, classify the node id with the regex, then fetch
the state from EC2 (`State.Name`) on the virtual-machine path or from SSM
(`PingStatus`, mapped to `"running"` / `"not-running"`) on the ECS Anywhere
path.  Returns the trace of AWS calls together with either the triple
`(node_id, instance_status, agent_connected)` or the wrapped error. -/
def fetch_ec2_details (env : AwsEnv) (node_ecs_arn ecs_cluster : String) :
    List Event × Except String (String × String × Bool) :=
  match env.describeContainerInstance ecs_cluster node_ecs_arn with
  | .error e => ([.ecsQuery ecs_cluster node_ecs_arn], .error (wrapFetchError e))
  | .ok (node_id, agent_connected) =>
    if isEc2InstanceId node_id then
      match env.describeInstanceState node_id with
      | .error e =>
          ([.ecsQuery ecs_cluster node_ecs_arn, .stateQuery node_id],
           .error (wrapFetchError e))
      | .ok stateName =>
          ([.ecsQuery ecs_cluster node_ecs_arn, .stateQuery node_id],
           .ok (node_id, stateName, agent_connected))
    else
      match env.describePingStatus node_id with
      | .error e =>
          ([.ecsQuery ecs_cluster node_ecs_arn, .pingQuery node_id],
           .error (wrapFetchError e))
      | .ok pingStatus =>
          ([.ecsQuery ecs_cluster node_ecs_arn, .pingQuery node_id],
           .ok (node_id,
                if pingStatus == "Online" then "running" else "not-running",
                agent_connected))

/-- The resolved `ECSNode` object: the fields set by `ECSNode.__init__`
from the result of `fetch_ec2_details` plus the cluster ARN. -/
structure ECSNode where
  ec2_id : String
  instance_status : String
  agent_connected : Bool
  cluster_arn : String
  deriving DecidableEq, Repr

/-- Model of `ECSNode(node_ecs_arn, ecs_cluster)` construction: run
`fetch_ec2_details` and populate the object. -/
def mkECSNode (env : AwsEnv) (node_ecs_arn ecs_cluster : String) :
    List Event × Except String ECSNode :=
  match fetch_ec2_details env node_ecs_arn ecs_cluster with
  | (tr, .error e) => (tr, .error e)
  | (tr, .ok (node_id, stateName, agent_connected)) =>
      (tr, .ok ⟨node_id, stateName, agent_connected, ecs_cluster⟩)

/-- Model of `ECSNode.is_ec2_running` (`commonlib.py:113-123`): true exactly
when the resolved instance status equals `"running"`. -/
def ECSNode.is_ec2_running (n : ECSNode) : Bool := n.instance_status == "running"

/-- Model of `ECSNode.is_agent_connected` (`commonlib.py:169-180`): the
truthiness of the resolved `agentConnected` field. -/
def ECSNode.is_agent_connected (n : ECSNode) : Bool := n.agent_connected

/-- Error wrapper of the `except ClientError` arm of
`ECSNode.does_cluster_have_tags`. -/
def wrapTagsError (e : String) : String :=
  "Error: An error occurred when checking Cluster tags - " ++ e

/-- Model of `ECSNode.does_cluster_have_tags` (`commonlib.py:125-167`): if
either tag is `None` return `False` at once (no AWS call); otherwise fetch
the cluster's tags and return whether some entry matches both key and value
exactly.  The empty trace in the `None` cases witnesses that no upstream
query is issued. -/
def ECSNode.does_cluster_have_tags (n : ECSNode) (env : AwsEnv)
    (tag_key tag_value : Option String) : List Event × Except String Bool :=
  match tag_key, tag_value with
  | none, _ => ([], .ok false)
  | some _, none => ([], .ok false)
  | some k, some v =>
    match env.describeClusterTags n.cluster_arn with
    | .error e => ([.tagQuery n.cluster_arn], .error (wrapTagsError e))
    | .ok tags =>
        ([.tagQuery n.cluster_arn],
         .ok (tags.any fun t => t.key == k && t.value == v))

/-- Model of `SNSTopic.send_email` (`commonlib.py:198-220`): publish to the
topic, wrapping a failure into the e-mail error message. -/
def send_email (env : AwsEnv) (topic_arn email_subject email_body : String) :
    Except String Unit :=
  match env.snsPublish topic_arn email_subject email_body with
  | .error e => .error ("Error: An error occurred when sending the e-mail - " ++ e)
  | .ok _ => .ok ()

/-- The characters after the last `/` of a character list, or `none` when no
`/` occurs in it. -/
def afterLastSlash : List Char → Option (List Char)
  | [] => none
  | c :: rest =>
    match afterLastSlash rest with
    | some t => some t
    | none => if c = '/' then some rest else none

/-- Model of Python `cluster_arn.rsplit("/", 1)[1]` (`lambda_event_bridge_monitor.py:147`):
the segment after the last `/`, or `none` when the string contains no `/`
(in which case `rsplit` yields a one-element list and the `[1]` index raises
`IndexError`). -/
def rsplitAfterLastSlash (s : String) : Option String :=
  (afterLastSlash s.toList).map String.mk

/-- Outcome of processing one record inside the `for` loop of `handler`:
continue with the next record, `return` from the handler (the early exit of
`lambda_event_bridge_monitor.py:98`), or an exception with the given message. -/
inductive StepOutcome where
  | next : StepOutcome
  | stop : StepOutcome
  | err : String → StepOutcome
  deriving DecidableEq, Repr

/-- The three-condition check of `lambda_event_bridge_monitor.py:110-119`:
`(check_all_clusters.lower() in ['true','yes'] or ecs_instance.does_cluster_have_tags(...))
 and ecs_instance.is_ec2_running() and not ecs_instance.is_agent_connected()`.
Python `or` short-circuits, so the tag query is issued only when the
monitor-all flag is off; a tag-query failure propagates as an error. -/
def eligibility (env : AwsEnv) (cfg : Config) (node : ECSNode) :
    List Event × Except String Bool :=
  if monitorAll cfg then
    ([], .ok (node.is_ec2_running && !node.is_agent_connected))
  else
    match node.does_cluster_have_tags env cfg.tag_key cfg.tag_value with
    | (tr, .error e) => (tr, .error e)
    | (tr, .ok tagOk) =>
        (tr, .ok (tagOk && node.is_ec2_running && !node.is_agent_connected))

/-- The e-mail body built at `lambda_event_bridge_monitor.py:131-135`. -/
def notificationBody (node_id cluster_arn : String) : String :=
  "[ISSUE] ECS Container Instance " ++ node_id ++ " from Cluster " ++ cluster_arn
    ++ " has the ECS Agent disconnected."

/-- The e-mail subject built at `lambda_event_bridge_monitor.py:141`. -/
def notificationSubject (node_id : String) : String :=
  "[ISSUE] ECS Instance - " ++ node_id

/-- The body of the `for record in event["Records"]` loop of `handler`
(`lambda_event_bridge_monitor.py:73-157`) for one record: decode and
sanity-check the payload, early-return on a record that is not an
"agent disconnected while ACTIVE" event, build the `ECSNode`, evaluate the
three-condition check, deduplicate against `already_processed_nodes`, send
the notification and emit the metric log line.  Returns the events emitted,
the updated `already_processed_nodes` list and the loop outcome. -/
def processRecord (env : AwsEnv) (cfg : Config) (processed : List String) :
    RawRecord → List Event × List String × StepOutcome
  | .malformed msg => ([], processed, .err msg)
  | .emptyPayload => ([], processed, .err "Message empty! No details to process.")
  | .payload p =>
    if p.source ≠ "aws.ecs" ∨ p.detailType ≠ "ECS Container Instance State Change" then
      ([], processed,
       .err "Only 'aws.ecs' events and Instance state changes are supported.")
    else if p.agentConnected ≠ JVal.jbool false ∨ p.status ≠ "ACTIVE" then
      ([], processed, .stop)
    else
      match mkECSNode env p.containerInstanceArn p.clusterArn with
      | (tr, .error e) => (tr, processed, .err e)
      | (tr, .ok node) =>
        match eligibility env cfg node with
        | (tr2, .error e) => (tr ++ tr2, processed, .err e)
        | (tr2, .ok true) =>
          if node.ec2_id ∈ processed then
            (tr ++ tr2, processed, .next)
          else
            match send_email env cfg.email_notification
                (notificationSubject node.ec2_id)
                (notificationBody node.ec2_id node.cluster_arn) with
            | .error e =>
                (tr ++ tr2
                   ++ [.notif cfg.email_notification
                        (notificationSubject node.ec2_id)
                        (notificationBody node.ec2_id node.cluster_arn)],
                 processed ++ [node.ec2_id], .err e)
            | .ok _ =>
              match rsplitAfterLastSlash node.cluster_arn with
              | none =>
                  (tr ++ tr2
                     ++ [.notif cfg.email_notification
                          (notificationSubject node.ec2_id)
                          (notificationBody node.ec2_id node.cluster_arn)],
                   processed ++ [node.ec2_id], .err "list index out of range")
              | some shortName =>
                  (tr ++ tr2
                     ++ [.notif cfg.email_notification
                          (notificationSubject node.ec2_id)
                          (notificationBody node.ec2_id node.cluster_arn),
                         .metricLog shortName node.ec2_id],
                   processed ++ [node.ec2_id], .next)
        | (tr2, .ok false) => (tr ++ tr2, processed, .next)

/-- The `for` loop of `handler` over the remaining records, threading the
`already_processed_nodes` list: an `err` outcome aborts the loop with the
exception, a `stop` outcome is the early `return` (success), otherwise
continue with the updated list. -/
def runBatchAux (env : AwsEnv) (cfg : Config) :
    List RawRecord → List String → List Event × Except String Unit
  | [], _ => ([], .ok ())
  | r :: rs, processed =>
    match processRecord env cfg processed r with
    | (tr, _, .err e) => (tr, .error e)
    | (tr, _, .stop) => (tr, .ok ())
    | (tr, processed2, .next) =>
      match runBatchAux env cfg rs processed2 with
      | (tr2, res) => (tr ++ tr2, res)

/-- Model of `handler` (`lambda_event_bridge_monitor.py:46-161`): start with
an empty `already_processed_nodes` list, run the loop, and wrap any escaping
exception into `Exception(f"Error: execution error - {str(error)}")`
(the outer `except` at line 160-161). -/
def handler (env : AwsEnv) (cfg : Config) (records : List RawRecord) :
    List Event × Except String Unit :=
  match runBatchAux env cfg records [] with
  | (tr, .ok _) => (tr, .ok ())
  | (tr, .error e) => (tr, .error ("Error: execution error - " ++ e))

/-- Predicate classifying an SNS publish event in the trace. -/
def Event.isNotif : Event → Bool
  | .notif _ _ _ => true
  | _ => false

/-- Predicate classifying a cluster tag query event in the trace. -/
def Event.isTagQuery : Event → Bool
  | .tagQuery _ => true
  | _ => false

/-- Number of SNS notifications dispatched in a trace. -/
def notifCount (tr : List Event) : Nat := (tr.filter Event.isNotif).length

/-- Whether a trace contains any cluster tag query. -/
def hasTagQuery (tr : List Event) : Bool := tr.any Event.isTagQuery

/-- Predicate classifying the metric-generating warning log event. -/
def Event.isMetricLog : Event → Bool
  | .metricLog _ _ => true
  | _ => false

theorem notifCount_append (a b : List Event) :
    notifCount (a ++ b) = notifCount a + notifCount b := by
  simp [notifCount, List.filter_append]

theorem hasTagQuery_append (a b : List Event) :
    hasTagQuery (a ++ b) = (hasTagQuery a || hasTagQuery b) := by
  simp [hasTagQuery]

/-- The trace of a `fetch_ec2_details` call contains no SNS publish and no
cluster tag query: it only ever records the ECS describe call and one of the
EC2 / SSM state queries. -/
theorem fetch_trace_shape (env : AwsEnv) (arn cluster : String) :
    notifCount (fetch_ec2_details env arn cluster).1 = 0
    ∧ hasTagQuery (fetch_ec2_details env arn cluster).1 = false := by
  unfold fetch_ec2_details
  cases h : env.describeContainerInstance cluster arn with
  | error e => simp [notifCount, hasTagQuery, Event.isNotif, Event.isTagQuery]
  | ok pr =>
    rcases pr with ⟨node_id, ac⟩
    by_cases hid : isEc2InstanceId node_id
    · simp only [hid, if_true]
      cases hst : env.describeInstanceState node_id
        <;> simp [notifCount, hasTagQuery, Event.isNotif, Event.isTagQuery]
    · simp only [hid, if_false, Bool.false_eq_true]
      cases hst : env.describePingStatus node_id
        <;> simp [notifCount, hasTagQuery, Event.isNotif, Event.isTagQuery]

/-- Constructing an `ECSNode` emits exactly the trace of its
`fetch_ec2_details` call. -/
theorem mkECSNode_fst (env : AwsEnv) (arn cluster : String) :
    (mkECSNode env arn cluster).1 = (fetch_ec2_details env arn cluster).1 := by
  unfold mkECSNode
  rcases h : fetch_ec2_details env arn cluster with ⟨tr, res⟩
  cases res with
  | error e => simp
  | ok triple => rcases triple with ⟨a, b, c⟩; simp

/-- The trace of an `eligibility` evaluation contains no SNS publish: the
only event it can emit is the cluster tag query. -/
theorem eligibility_trace_shape (env : AwsEnv) (cfg : Config) (node : ECSNode) :
    notifCount (eligibility env cfg node).1 = 0 := by
  unfold eligibility
  by_cases hAll : monitorAll cfg
  · simp [hAll, notifCount]
  · simp only [hAll, Bool.false_eq_true, if_false]
    rcases h : node.does_cluster_have_tags env cfg.tag_key cfg.tag_value with ⟨tr, res⟩
    have htr : tr = (node.does_cluster_have_tags env cfg.tag_key cfg.tag_value).1 := by
      rw [h]
    cases res with
    | error e =>
        simp only []
        rw [htr]
        unfold ECSNode.does_cluster_have_tags
        rcases cfg.tag_key with _ | k <;> rcases cfg.tag_value with _ | v
          <;> try simp [notifCount]
        cases env.describeClusterTags node.cluster_arn
          <;> simp [notifCount, Event.isNotif]
    | ok b =>
        simp only []
        rw [htr]
        unfold ECSNode.does_cluster_have_tags
        rcases cfg.tag_key with _ | k <;> rcases cfg.tag_value with _ | v
          <;> try simp [notifCount]
        cases env.describeClusterTags node.cluster_arn
          <;> simp [notifCount, Event.isNotif]

/-- The handler returns exactly the trace produced by the loop: the outer
exception wrapper changes only the error message. -/
theorem handler_fst (env : AwsEnv) (cfg : Config) (records : List RawRecord) :
    (handler env cfg records).1 = (runBatchAux env cfg records []).1 := by
  unfold handler
  rcases h : runBatchAux env cfg records [] with ⟨tr, res⟩
  cases res <;> simp

/-- An eligible record passing all checks makes the loop continue with the
next record only after the early-exit test; a record failing the early-exit
test stops the loop at once with no event emitted and no state change. -/
theorem processRecord_stop (env : AwsEnv) (cfg : Config) (p : Payload)
    (hs : p.source = "aws.ecs")
    (ht : p.detailType = "ECS Container Instance State Change")
    (h : p.agentConnected ≠ JVal.jbool false ∨ p.status ≠ "ACTIVE") :
    ∀ processed, processRecord env cfg processed (RawRecord.payload p)
      = ([], processed, StepOutcome.stop) := by
  intro processed
  simp only [processRecord]
  rw [if_neg (by simp [hs, ht]), if_pos h]

/-- A record that stops the loop makes the rest of the batch irrelevant:
the loop on any batch containing it equals the loop on the batch truncated
right after it, from any intermediate dedup state. -/
theorem runBatchAux_stopped (env : AwsEnv) (cfg : Config) (r : RawRecord)
    (hstop : ∀ processed, processRecord env cfg processed r
      = ([], processed, StepOutcome.stop)) :
    ∀ (pre rest : List RawRecord) (processed : List String),
      runBatchAux env cfg (pre ++ r :: rest) processed
        = runBatchAux env cfg (pre ++ [r]) processed := by
  intro pre
  induction pre with
  | nil =>
      intro rest processed
      simp only [List.nil_append]
      unfold runBatchAux
      rw [hstop processed]
  | cons q pre ih =>
      intro rest processed
      simp only [List.cons_append]
      unfold runBatchAux
      rcases hq : processRecord env cfg processed q with ⟨tr, processed2, out⟩
      cases out with
      | err e => rfl
      | stop => rfl
      | next => dsimp only; rw [ih rest processed2]

/-- A concrete AWS environment used to instantiate the theorems: one EC2
container instance, running, with the agent disconnected, in a tagged
cluster, and an SNS topic that accepts every publish. -/
def envA : AwsEnv where
  describeContainerInstance := fun _ _ => .ok ("i-0123456789abcdef0", false)
  describeInstanceState := fun _ => .ok "running"
  describePingStatus := fun _ => .ok "Online"
  describeClusterTags := fun _ => .ok [⟨"monitor", "yes"⟩]
  snsPublish := fun _ _ _ => .ok ()

/-- A concrete tag-based configuration. -/
def cfgA : Config := ⟨some "monitor", some "yes", "false", "arn:topic"⟩

/-- A concrete configuration with `checkAllClusters` set to `"True"`. -/
def cfgAll : Config := ⟨none, none, "True", "arn:topic"⟩

/-- A concrete well-formed payload for an agent-disconnected ACTIVE instance. -/
def pActive : Payload :=
  ⟨"aws.ecs", "ECS Container Instance State Change", "arn:ci",
   "arn:aws:ecs:us-east-1:111122223333:cluster/prod", .jbool false, "ACTIVE"⟩

/-- The same payload with a non-ACTIVE declared status. -/
def pInactive : Payload := { pActive with status := "INACTIVE" }

/-- The same payload with an unsupported event source. -/
def pWrongSource : Payload := { pActive with source := "aws.ec2" }

/-- C1: when processing reaches a well-formed record whose declared
`agentConnected` is not exactly the JSON boolean `false` or whose declared
`status` is not `"ACTIVE"`, the loop body emits no event at all (no ECS
node query, no notification) and returns from the handler immediately, so
the records after it contribute nothing: the handler on any batch
containing such a record equals the handler on the batch truncated right
after it. -/
theorem C1_early_exit_stops_batch (env : AwsEnv) (cfg : Config) (p : Payload)
    (pre rest : List RawRecord)
    (hs : p.source = "aws.ecs")
    (ht : p.detailType = "ECS Container Instance State Change")
    (h : p.agentConnected ≠ JVal.jbool false ∨ p.status ≠ "ACTIVE") :
    (∀ processed, processRecord env cfg processed (RawRecord.payload p)
        = ([], processed, StepOutcome.stop))
    ∧ handler env cfg (pre ++ RawRecord.payload p :: rest)
        = handler env cfg (pre ++ [RawRecord.payload p]) := by
  have hstop := processRecord_stop env cfg p hs ht h
  refine ⟨hstop, ?_⟩
  unfold handler
  rw [runBatchAux_stopped env cfg _ hstop pre rest []]

/-- Witness for C1 at a concrete batch: an INACTIVE record at the head of
a two-record batch stops the batch, and the second record is irrelevant. -/
theorem C1_witness :
    processRecord envA cfgA [] (RawRecord.payload pInactive)
        = ([], [], StepOutcome.stop)
    ∧ handler envA cfgA [RawRecord.payload pInactive, RawRecord.payload pActive]
        = handler envA cfgA [RawRecord.payload pInactive] := by
  have h := C1_early_exit_stops_batch envA cfgA pInactive [] [RawRecord.payload pActive]
    rfl rfl (Or.inr (by decide))
  exact ⟨h.1 [], h.2⟩

/-- C10: the early exit on a record that is not an "agent disconnected while
ACTIVE" event is a normal, non-error completion of the batch (the handler
returns `ok`), whereas a malformed record body, an empty decoded payload,
and an unsupported source or detail-type each make the handler raise the
wrapped error. -/
theorem C10_early_exit_is_success (env : AwsEnv) (cfg : Config) (p q : Payload)
    (rest : List RawRecord) (msg : String)
    (hs : p.source = "aws.ecs")
    (ht : p.detailType = "ECS Container Instance State Change")
    (h : p.agentConnected ≠ JVal.jbool false ∨ p.status ≠ "ACTIVE")
    (hq : q.source ≠ "aws.ecs" ∨ q.detailType ≠ "ECS Container Instance State Change") :
    (handler env cfg (RawRecord.payload p :: rest)).2 = Except.ok ()
    ∧ (handler env cfg (RawRecord.malformed msg :: rest)).2
        = Except.error ("Error: execution error - " ++ msg)
    ∧ (handler env cfg (RawRecord.emptyPayload :: rest)).2
        = Except.error "Error: execution error - Message empty! No details to process."
    ∧ (handler env cfg (RawRecord.payload q :: rest)).2
        = Except.error "Error: execution error - Only 'aws.ecs' events and Instance state changes are supported." := by
  refine ⟨?_, ?_, ?_, ?_⟩
  · unfold handler runBatchAux
    rw [processRecord_stop env cfg p hs ht h []]
  · rfl
  · rfl
  · unfold handler runBatchAux
    have hqe : processRecord env cfg [] (RawRecord.payload q)
        = ([], [],
           StepOutcome.err "Only 'aws.ecs' events and Instance state changes are supported.") := by
      simp only [processRecord]
      rw [if_pos hq]
    rw [hqe]
    rfl

/-- Witness for C10 at concrete records: the INACTIVE record completes the
batch successfully, while malformed, empty and wrong-source records error. -/
theorem C10_witness :
    (handler envA cfgA [RawRecord.payload pInactive]).2 = Except.ok ()
    ∧ (handler envA cfgA [RawRecord.malformed "Expecting value"]).2
        = Except.error ("Error: execution error - " ++ "Expecting value")
    ∧ (handler envA cfgA [RawRecord.emptyPayload]).2
        = Except.error "Error: execution error - Message empty! No details to process."
    ∧ (handler envA cfgA [RawRecord.payload pWrongSource]).2
        = Except.error "Error: execution error - Only 'aws.ecs' events and Instance state changes are supported." := by
  exact C10_early_exit_is_success envA cfgA pInactive pWrongSource [] "Expecting value"
    rfl rfl (Or.inr (by decide)) (Or.inl (by decide))

/-- C4: the cluster-tag check with an absent tag key or tag value returns
`false` with an empty trace (no upstream tag query) and no error; with both
present it issues one tag query and returns `ok r` where `r` is true exactly
when some tag entry matches both key and value under exact string equality —
an empty tag list or no match yields `ok false`, never an error. -/
theorem C4_tag_check_fail_closed (env : AwsEnv) (n : ECSNode) :
    (∀ tv, n.does_cluster_have_tags env none tv = ([], Except.ok false))
    ∧ (∀ tk, n.does_cluster_have_tags env tk none = ([], Except.ok false))
    ∧ (∀ k v tags, env.describeClusterTags n.cluster_arn = Except.ok tags →
        ∃ r, n.does_cluster_have_tags env (some k) (some v)
            = ([Event.tagQuery n.cluster_arn], Except.ok r)
          ∧ (r = true ↔ ∃ t ∈ tags, t.key = k ∧ t.value = v)) := by
  refine ⟨fun tv => rfl, ?_, ?_⟩
  · intro tk
    cases tk <;> rfl
  · intro k v tags htags
    refine ⟨tags.any fun t => t.key == k && t.value == v, ?_, ?_⟩
    · unfold ECSNode.does_cluster_have_tags
      rw [htags]
    · simp [List.any_eq_true]

/-- Witness for C4 at a concrete environment: unset keys give `false` with
no query, and a present matching tag is found. -/
theorem C4_witness :
    ECSNode.does_cluster_have_tags ⟨"i-0123456789abcdef0", "running", false, "cl"⟩
        envA none (some "yes") = ([], Except.ok false)
    ∧ ECSNode.does_cluster_have_tags ⟨"i-0123456789abcdef0", "running", false, "cl"⟩
        envA (some "monitor") none = ([], Except.ok false)
    ∧ ECSNode.does_cluster_have_tags ⟨"i-0123456789abcdef0", "running", false, "cl"⟩
        envA (some "monitor") (some "yes")
        = ([Event.tagQuery "cl"], Except.ok true) := by
  have h := C4_tag_check_fail_closed envA ⟨"i-0123456789abcdef0", "running", false, "cl"⟩
  obtain ⟨r, hr, hiff⟩ := h.2.2 "monitor" "yes" [⟨"monitor", "yes"⟩] rfl
  have hrt : r = true := hiff.mpr ⟨⟨"monitor", "yes"⟩, by simp, rfl, rfl⟩
  exact ⟨h.1 (some "yes"), h.2.1 (some "monitor"), by rw [← hrt]; exact hr⟩

/-- C2: for a resolved node whose cluster-tag check answers `ok tagOk`, the
three-condition decision computed by the handler is exactly
`(monitorAll or tagOk) and running and not agentConnected`; moreover a node
that is not running, or whose agent is connected, is never eligible — not
even when the tag query fails or the monitor-all flag is set. -/
theorem C2_eligibility_three_conditions (env : AwsEnv) (cfg : Config) (n : ECSNode) :
    (∀ tr tagOk, n.does_cluster_have_tags env cfg.tag_key cfg.tag_value
        = (tr, Except.ok tagOk) →
      (eligibility env cfg n).2
        = Except.ok ((monitorAll cfg || tagOk)
            && n.is_ec2_running && !n.is_agent_connected))
    ∧ (n.is_ec2_running = false → (eligibility env cfg n).2 ≠ Except.ok true)
    ∧ (n.is_agent_connected = true → (eligibility env cfg n).2 ≠ Except.ok true) := by
  refine ⟨?_, ?_, ?_⟩
  · intro tr tagOk htag
    unfold eligibility
    by_cases hAll : monitorAll cfg
    · simp [hAll]
    · simp only [hAll, Bool.false_eq_true, if_false, htag]
      simp [Bool.and_assoc, eq_false_of_ne_true hAll]
  · intro hrun
    unfold eligibility
    by_cases hAll : monitorAll cfg
    · simp [hAll, hrun]
    · simp only [hAll, Bool.false_eq_true, if_false]
      rcases htag : n.does_cluster_have_tags env cfg.tag_key cfg.tag_value with ⟨tr, res⟩
      cases res <;> simp [hrun]
  · intro hconn
    unfold eligibility
    by_cases hAll : monitorAll cfg
    · simp [hAll, hconn]
    · simp only [hAll, Bool.false_eq_true, if_false]
      rcases htag : n.does_cluster_have_tags env cfg.tag_key cfg.tag_value with ⟨tr, res⟩
      cases res <;> simp [hconn]

/-- Witness for C2 at concrete nodes: an eligible node decides true; a
stopped node and a reconnected node decide false. -/
theorem C2_witness :
    (eligibility envA cfgA ⟨"i-0123456789abcdef0", "running", false, "cl"⟩).2
        = Except.ok true
    ∧ (eligibility envA cfgA ⟨"i-0123456789abcdef0", "stopped", false, "cl"⟩).2
        ≠ Except.ok true
    ∧ (eligibility envA cfgA ⟨"i-0123456789abcdef0", "running", true, "cl"⟩).2
        ≠ Except.ok true := by
  refine ⟨?_, ?_, ?_⟩
  · have h := (C2_eligibility_three_conditions envA cfgA
      ⟨"i-0123456789abcdef0", "running", false, "cl"⟩).1 [Event.tagQuery "cl"] true rfl
    rw [h]
    rfl
  · exact (C2_eligibility_three_conditions envA cfgA
      ⟨"i-0123456789abcdef0", "stopped", false, "cl"⟩).2.1 rfl
  · exact (C2_eligibility_three_conditions envA cfgA
      ⟨"i-0123456789abcdef0", "running", true, "cl"⟩).2.2 rfl

/-- One ASCII lowercase hexadecimal character, `0`-`9` or `a`-`f`. -/
def isAsciiHexLowerDigit (c : Char) : Bool :=
  (decide ('0' ≤ c) && decide (c ≤ '9')) || (decide ('a' ≤ c) && decide (c ≤ 'f'))

/-- Spec-side description of the virtual-machine identifier format, written
from the original claim's words: the two characters `i-` followed by exactly
8 or exactly 17 lowercase hexadecimal characters and nothing else.  It is
compared against the code-side regex model `isEc2InstanceId`, which is
strictly wider (Python's `$` also matches before one trailing newline and
`\d` matches every Unicode decimal digit). -/
def specVmIdentifier (s : String) : Bool :=
  s.toList.take 2 == ['i', '-']
    && ((s.toList.drop 2).length == 8 || (s.toList.drop 2).length == 17)
    && (s.toList.drop 2).all isAsciiHexLowerDigit

/-- Spec-side description written from the amended claim's words: after
ignoring at most one trailing newline, the string is `i-` followed by
exactly 8 or exactly 17 characters, each a Unicode decimal digit or a
lowercase hex letter `a`-`f`. -/
def specVmIdentifierAmended (s : String) : Bool :=
  let cs := if s.toList.getLast? = some '\n' then s.toList.dropLast else s.toList
  cs.take 2 == ['i', '-']
    && ((cs.drop 2).length == 8 || (cs.drop 2).length == 17)
    && (cs.drop 2).all isHexLowerDigit

theorem ec2IdBody_eq_takeDrop (cs : List Char) :
    ec2IdBody cs
      = (cs.take 2 == ['i', '-']
          && ((cs.drop 2).length == 8 || (cs.drop 2).length == 17)
          && (cs.drop 2).all isHexLowerDigit) := by
  cases cs with
  | nil => rfl
  | cons c1 cs1 =>
    cases cs1 with
    | nil =>
        rw [Bool.eq_iff_iff]
        simp [ec2IdBody]
    | cons c2 rest =>
        have ht : (c1 :: c2 :: rest).take 2 = [c1, c2] := rfl
        have hd : (c1 :: c2 :: rest).drop 2 = rest := rfl
        rw [ht, hd, Bool.eq_iff_iff]
        simp only [ec2IdBody, Bool.and_eq_true, Bool.or_eq_true, beq_iff_eq,
          List.cons.injEq, and_true]
        constructor
        · rintro ⟨⟨h1, h2⟩, h3 | h3⟩
          · exact ⟨⟨⟨h1, h2⟩, Or.inl h3.1⟩, h3.2⟩
          · exact ⟨⟨⟨h1, h2⟩, Or.inr h3.1⟩, h3.2⟩
        · rintro ⟨⟨⟨h1, h2⟩, h3 | h3⟩, h4⟩
          · exact ⟨⟨h1, h2⟩, Or.inl ⟨h3, h4⟩⟩
          · exact ⟨⟨h1, h2⟩, Or.inr ⟨h3, h4⟩⟩

/-- An environment whose container-instance lookup resolves to a node id
carrying a trailing newline — a string the source regex accepts. -/
def envNl : AwsEnv where
  describeContainerInstance := fun _ _ => .ok ("i-0123abcd\n", false)
  describeInstanceState := fun _ => .ok "running"
  describePingStatus := fun _ => .ok "Online"
  describeClusterTags := fun _ => .ok []
  snsPublish := fun _ _ _ => .ok ()

/-- Counterexample to C5 as stated: `"i-0123abcd\n"` and `"i-0123456٧"`
(seven ASCII digits then ARABIC-INDIC DIGIT SEVEN) are not `i-` followed by
exactly 8 or 17 lowercase hexadecimal characters, yet the source regex
matches them — Python's `$` matches before a trailing newline and `\d`
matches Unicode decimal digits — so such identifiers take the
virtual-machine path (the EC2 state query), not the externally-registered
path the claim assigns to every other string. -/
theorem C5_counterexample :
    isEc2InstanceId "i-0123abcd\n" = true
    ∧ specVmIdentifier "i-0123abcd\n" = false
    ∧ isEc2InstanceId "i-0123456٧" = true
    ∧ specVmIdentifier "i-0123456٧" = false
    ∧ (fetch_ec2_details envNl "arn:ci" "cl").1
        = [Event.ecsQuery "cl" "arn:ci", Event.stateQuery "i-0123abcd\n"] := by
  refine ⟨by decide, by decide, by decide, by decide, rfl⟩

/-- C5 (amended): the classification takes the virtual-machine path exactly
when the identifier, after ignoring at most one trailing newline (Python's
`$`), is `i-` followed by exactly 8 or exactly 17 characters each a Unicode
decimal digit or a lowercase hex letter `a`-`f` (Python's `[a-f\d]`); the
original examples classify as before, and the branch actually taken by
`fetch_ec2_details` follows the classification: a matching identifier is
resolved through the EC2 instance-state query, every other identifier
through the SSM ping-status query. -/
theorem C5_node_id_classification_amended :
    (∀ s, isEc2InstanceId s = specVmIdentifierAmended s)
    ∧ isEc2InstanceId "i-0123abcd" = true
    ∧ isEc2InstanceId "i-0123456789abcdef0" = true
    ∧ isEc2InstanceId "mi-0123456789abcdef0" = false
    ∧ (∀ env arn cluster node_id ac,
        env.describeContainerInstance cluster arn = Except.ok (node_id, ac) →
        ((isEc2InstanceId node_id = true →
            (fetch_ec2_details env arn cluster).1
              = [Event.ecsQuery cluster arn, Event.stateQuery node_id])
          ∧ (isEc2InstanceId node_id = false →
            (fetch_ec2_details env arn cluster).1
              = [Event.ecsQuery cluster arn, Event.pingQuery node_id]))) := by
  refine ⟨fun s => ec2IdBody_eq_takeDrop (dollarStrip s.toList),
    by decide, by decide, by decide, ?_⟩
  intro env arn cluster node_id ac hdesc
  constructor
  · intro hid
    unfold fetch_ec2_details
    rw [hdesc]
    dsimp only
    rw [hid]
    cases hst : env.describeInstanceState node_id <;> rfl
  · intro hid
    unfold fetch_ec2_details
    rw [hdesc]
    dsimp only
    rw [hid]
    cases hst : env.describePingStatus node_id <;> rfl

/-- Witness for the amended C5 at the concrete environment: the EC2-format
identifier is resolved through the instance-state query. -/
theorem C5_witness :
    (fetch_ec2_details envA "arn:ci" "cl").1
      = [Event.ecsQuery "cl" "arn:ci", Event.stateQuery "i-0123456789abcdef0"] :=
  ((C5_node_id_classification_amended.2.2.2.2 envA "arn:ci" "cl"
    "i-0123456789abcdef0" false rfl).1) (by decide)

/-- C6: the running predicate of a resolved node is exactly the test
`instance_status == "running"`; on the virtual-machine path that status is
the EC2-reported state name verbatim, and on the externally-registered path
it is `"running"` exactly when the SSM ping status equals `"Online"` and
`"not-running"` otherwise. -/
theorem C6_running_predicate :
    (∀ n : ECSNode, n.is_ec2_running = (n.instance_status == "running"))
    ∧ (∀ env arn cluster node_id ac stateName,
        env.describeContainerInstance cluster arn = Except.ok (node_id, ac) →
        isEc2InstanceId node_id = true →
        env.describeInstanceState node_id = Except.ok stateName →
        (fetch_ec2_details env arn cluster).2
          = Except.ok (node_id, stateName, ac))
    ∧ (∀ env arn cluster node_id ac pingStatus,
        env.describeContainerInstance cluster arn = Except.ok (node_id, ac) →
        isEc2InstanceId node_id = false →
        env.describePingStatus node_id = Except.ok pingStatus →
        (fetch_ec2_details env arn cluster).2
          = Except.ok (node_id,
              (if pingStatus == "Online" then "running" else "not-running"),
              ac)) := by
  refine ⟨fun n => rfl, ?_, ?_⟩
  · intro env arn cluster node_id ac stateName hdesc hid hst
    unfold fetch_ec2_details
    rw [hdesc]
    dsimp only
    rw [hid, hst]
    rfl
  · intro env arn cluster node_id ac pingStatus hdesc hid hping
    unfold fetch_ec2_details
    rw [hdesc]
    dsimp only
    rw [hid, hping]
    rfl

/-- Witness for C6: at the concrete environment the EC2 path reports the
verbatim state name, and an Anywhere-format node with an `Online` ping
resolves to status `"running"`. -/
theorem C6_witness :
    (fetch_ec2_details envA "arn:ci" "cl").2
        = Except.ok ("i-0123456789abcdef0", "running", false)
    ∧ (fetch_ec2_details
          ⟨fun _ _ => Except.ok ("mi-0123456789abcdef0", false),
           fun _ => Except.ok "running", fun _ => Except.ok "Online",
           fun _ => Except.ok [], fun _ _ _ => Except.ok ()⟩
          "arn:ci" "cl").2
        = Except.ok ("mi-0123456789abcdef0",
            (if ("Online" : String) == "Online" then "running" else "not-running"),
            false) := by
  constructor
  · exact C6_running_predicate.2.1 envA "arn:ci" "cl" "i-0123456789abcdef0" false
      "running" rfl (by decide) rfl
  · exact C6_running_predicate.2.2 _ "arn:ci" "cl" "mi-0123456789abcdef0" false
      "Online" rfl (by decide) rfl

/-- The SNS publish event the handler records when dispatching an alert for
a node. -/
def dispatchEvent (cfg : Config) (node : ECSNode) : Event :=
  .notif cfg.email_notification (notificationSubject node.ec2_id)
    (notificationBody node.ec2_id node.cluster_arn)

/-- Loop body on a record that passes every check, resolves to a new
eligible node, publishes successfully and whose cluster identifier contains
a path separator: the alert is dispatched, the metric log line is emitted
and the node is added to the dedup list. -/
theorem processRecord_dispatch_ok (env : AwsEnv) (cfg : Config)
    (processed : List String) (p : Payload) (node : ECSNode)
    (tr etr : List Event) (shortName : String)
    (hs : p.source = "aws.ecs")
    (ht : p.detailType = "ECS Container Instance State Change")
    (hac : p.agentConnected = JVal.jbool false) (hst : p.status = "ACTIVE")
    (hmk : mkECSNode env p.containerInstanceArn p.clusterArn = (tr, Except.ok node))
    (hel : eligibility env cfg node = (etr, Except.ok true))
    (hnew : node.ec2_id ∉ processed)
    (hsend : env.snsPublish cfg.email_notification (notificationSubject node.ec2_id)
        (notificationBody node.ec2_id node.cluster_arn) = Except.ok ())
    (hsplit : rsplitAfterLastSlash node.cluster_arn = some shortName) :
    processRecord env cfg processed (RawRecord.payload p)
      = (tr ++ etr ++ [dispatchEvent cfg node, Event.metricLog shortName node.ec2_id],
         processed ++ [node.ec2_id], StepOutcome.next) := by
  simp only [processRecord]
  rw [if_neg (by simp [hs, ht]), if_neg (by simp [hac, hst]), hmk]
  dsimp only
  rw [hel]
  dsimp only
  rw [if_neg hnew]
  unfold send_email
  rw [hsend]
  dsimp only
  rw [hsplit]
  rfl

/-- Loop body in the same situation but with a cluster identifier containing
no path separator: the alert is dispatched and the node recorded, and then
the short-name extraction fails, turning the record into an error after the
notification has already been sent. -/
theorem processRecord_dispatch_noslash (env : AwsEnv) (cfg : Config)
    (processed : List String) (p : Payload) (node : ECSNode)
    (tr etr : List Event)
    (hs : p.source = "aws.ecs")
    (ht : p.detailType = "ECS Container Instance State Change")
    (hac : p.agentConnected = JVal.jbool false) (hst : p.status = "ACTIVE")
    (hmk : mkECSNode env p.containerInstanceArn p.clusterArn = (tr, Except.ok node))
    (hel : eligibility env cfg node = (etr, Except.ok true))
    (hnew : node.ec2_id ∉ processed)
    (hsend : env.snsPublish cfg.email_notification (notificationSubject node.ec2_id)
        (notificationBody node.ec2_id node.cluster_arn) = Except.ok ())
    (hsplit : rsplitAfterLastSlash node.cluster_arn = none) :
    processRecord env cfg processed (RawRecord.payload p)
      = (tr ++ etr ++ [dispatchEvent cfg node],
         processed ++ [node.ec2_id], StepOutcome.err "list index out of range") := by
  simp only [processRecord]
  rw [if_neg (by simp [hs, ht]), if_neg (by simp [hac, hst]), hmk]
  dsimp only
  rw [hel]
  dsimp only
  rw [if_neg hnew]
  unfold send_email
  rw [hsend]
  dsimp only
  rw [hsplit]
  rfl

/-- Loop body on a record resolving to an eligible node whose identifier is
already in the dedup list: nothing is dispatched and the list is unchanged. -/
theorem processRecord_suppressed (env : AwsEnv) (cfg : Config)
    (processed : List String) (p : Payload) (node : ECSNode) (tr etr : List Event)
    (hs : p.source = "aws.ecs")
    (ht : p.detailType = "ECS Container Instance State Change")
    (hac : p.agentConnected = JVal.jbool false) (hst : p.status = "ACTIVE")
    (hmk : mkECSNode env p.containerInstanceArn p.clusterArn = (tr, Except.ok node))
    (hel : eligibility env cfg node = (etr, Except.ok true))
    (hdup : node.ec2_id ∈ processed) :
    processRecord env cfg processed (RawRecord.payload p)
      = (tr ++ etr, processed, StepOutcome.next) := by
  simp only [processRecord]
  rw [if_neg (by simp [hs, ht]), if_neg (by simp [hac, hst]), hmk]
  dsimp only
  rw [hel]
  dsimp only
  rw [if_pos hdup]

/-- Loop body on a record whose source or detail-type is unsupported: the
handler raises its `ValueError` at once. -/
theorem processRecord_unsupported (env : AwsEnv) (cfg : Config)
    (processed : List String) (p : Payload)
    (h1 : p.source ≠ "aws.ecs" ∨ p.detailType ≠ "ECS Container Instance State Change") :
    processRecord env cfg processed (RawRecord.payload p)
      = ([], processed,
         StepOutcome.err "Only 'aws.ecs' events and Instance state changes are supported.") := by
  simp only [processRecord]
  rw [if_pos h1]

/-- Loop body on a record whose node resolution fails: the wrapped fetch
error aborts the record with the fetch trace and no state change. -/
theorem processRecord_resolution_error (env : AwsEnv) (cfg : Config)
    (processed : List String) (p : Payload) (tr : List Event) (e : String)
    (hs : p.source = "aws.ecs")
    (ht : p.detailType = "ECS Container Instance State Change")
    (hac : p.agentConnected = JVal.jbool false) (hst : p.status = "ACTIVE")
    (hmk : mkECSNode env p.containerInstanceArn p.clusterArn = (tr, Except.error e)) :
    processRecord env cfg processed (RawRecord.payload p)
      = (tr, processed, StepOutcome.err e) := by
  simp only [processRecord]
  rw [if_neg (by simp [hs, ht]), if_neg (by simp [hac, hst]), hmk]

/-- Loop body on a record whose eligibility evaluation fails (tag query
error): the error aborts the record. -/
theorem processRecord_elig_error (env : AwsEnv) (cfg : Config)
    (processed : List String) (p : Payload) (node : ECSNode)
    (tr etr : List Event) (e : String)
    (hs : p.source = "aws.ecs")
    (ht : p.detailType = "ECS Container Instance State Change")
    (hac : p.agentConnected = JVal.jbool false) (hst : p.status = "ACTIVE")
    (hmk : mkECSNode env p.containerInstanceArn p.clusterArn = (tr, Except.ok node))
    (hel : eligibility env cfg node = (etr, Except.error e)) :
    processRecord env cfg processed (RawRecord.payload p)
      = (tr ++ etr, processed, StepOutcome.err e) := by
  simp only [processRecord]
  rw [if_neg (by simp [hs, ht]), if_neg (by simp [hac, hst]), hmk]
  dsimp only
  rw [hel]

/-- Loop body on a record resolving to an ineligible node: nothing is
dispatched and the dedup list is unchanged. -/
theorem processRecord_skip (env : AwsEnv) (cfg : Config)
    (processed : List String) (p : Payload) (node : ECSNode) (tr etr : List Event)
    (hs : p.source = "aws.ecs")
    (ht : p.detailType = "ECS Container Instance State Change")
    (hac : p.agentConnected = JVal.jbool false) (hst : p.status = "ACTIVE")
    (hmk : mkECSNode env p.containerInstanceArn p.clusterArn = (tr, Except.ok node))
    (hel : eligibility env cfg node = (etr, Except.ok false)) :
    processRecord env cfg processed (RawRecord.payload p)
      = (tr ++ etr, processed, StepOutcome.next) := by
  simp only [processRecord]
  rw [if_neg (by simp [hs, ht]), if_neg (by simp [hac, hst]), hmk]
  dsimp only
  rw [hel]

/-- Loop body on an eligible, new node whose SNS publish fails: the node is
recorded and the publish call issued before the wrapped e-mail error aborts
the record. -/
theorem processRecord_dispatch_senderr (env : AwsEnv) (cfg : Config)
    (processed : List String) (p : Payload) (node : ECSNode)
    (tr etr : List Event) (e : String)
    (hs : p.source = "aws.ecs")
    (ht : p.detailType = "ECS Container Instance State Change")
    (hac : p.agentConnected = JVal.jbool false) (hst : p.status = "ACTIVE")
    (hmk : mkECSNode env p.containerInstanceArn p.clusterArn = (tr, Except.ok node))
    (hel : eligibility env cfg node = (etr, Except.ok true))
    (hnew : node.ec2_id ∉ processed)
    (hsend : env.snsPublish cfg.email_notification (notificationSubject node.ec2_id)
        (notificationBody node.ec2_id node.cluster_arn) = Except.error e) :
    processRecord env cfg processed (RawRecord.payload p)
      = (tr ++ etr ++ [dispatchEvent cfg node], processed ++ [node.ec2_id],
         StepOutcome.err ("Error: An error occurred when sending the e-mail - " ++ e)) := by
  simp only [processRecord]
  rw [if_neg (by simp [hs, ht]), if_neg (by simp [hac, hst]), hmk]
  dsimp only
  rw [hel]
  dsimp only
  rw [if_neg hnew]
  unfold send_email
  rw [hsend]
  rfl

/-- With the monitor-all flag set, the three-condition check never consults
the cluster tags: it reduces to the running and agent tests with an empty
trace. -/
theorem eligibility_monitorAll (env : AwsEnv) (cfg : Config) (node : ECSNode)
    (hm : monitorAll cfg = true) :
    eligibility env cfg node
      = ([], Except.ok (node.is_ec2_running && !node.is_agent_connected)) := by
  simp [eligibility, hm]

/-- With the monitor-all flag set, one loop-body step emits no cluster tag
query, whatever the record. -/
theorem processRecord_no_tagQuery (env : AwsEnv) (cfg : Config)
    (hm : monitorAll cfg = true) (processed : List String) (r : RawRecord) :
    hasTagQuery (processRecord env cfg processed r).1 = false := by
  cases r with
  | malformed msg => rfl
  | emptyPayload => rfl
  | payload p =>
    simp only [processRecord]
    split
    · rfl
    · split
      · rfl
      · rcases hmk : mkECSNode env p.containerInstanceArn p.clusterArn with ⟨tr, res⟩
        have htr : hasTagQuery tr = false := by
          have h1 := mkECSNode_fst env p.containerInstanceArn p.clusterArn
          rw [hmk] at h1
          rw [show tr = (fetch_ec2_details env p.containerInstanceArn p.clusterArn).1
            from h1]
          exact (fetch_trace_shape env p.containerInstanceArn p.clusterArn).2
        cases res with
        | error e => exact htr
        | ok node =>
          dsimp only
          rw [eligibility_monitorAll env cfg node hm]
          cases hb : node.is_ec2_running && !node.is_agent_connected with
          | false => simpa [hasTagQuery_append, hasTagQuery] using htr
          | true =>
            dsimp only
            by_cases hmem : node.ec2_id ∈ processed
            · rw [if_pos hmem]
              simpa [hasTagQuery_append, hasTagQuery] using htr
            · rw [if_neg hmem]
              cases hsend : send_email env cfg.email_notification
                  (notificationSubject node.ec2_id)
                  (notificationBody node.ec2_id node.cluster_arn) with
              | error e =>
                  simp only [hasTagQuery_append, htr]
                  rfl
              | ok u =>
                cases hsplit : rsplitAfterLastSlash node.cluster_arn with
                | none =>
                    simp only [hasTagQuery_append, htr]
                    rfl
                | some shortName =>
                    simp only [hasTagQuery_append, htr]
                    rfl

/-- With the monitor-all flag set, the whole loop emits no cluster tag
query. -/
theorem runBatchAux_no_tagQuery (env : AwsEnv) (cfg : Config)
    (hm : monitorAll cfg = true) :
    ∀ (records : List RawRecord) (processed : List String),
      hasTagQuery (runBatchAux env cfg records processed).1 = false := by
  intro records
  induction records with
  | nil => intro processed; rfl
  | cons r rs ih =>
    intro processed
    unfold runBatchAux
    have hr := processRecord_no_tagQuery env cfg hm processed r
    rcases hq : processRecord env cfg processed r with ⟨tr, processed2, out⟩
    rw [hq] at hr
    cases out with
    | err e => exact hr
    | stop => exact hr
    | next =>
        dsimp only
        rcases hrec : runBatchAux env cfg rs processed2 with ⟨tr2, res⟩
        have h2 := ih processed2
        rw [hrec] at h2
        simpa [hasTagQuery_append, hr] using h2

/-- C8: when the lower-cased `checkAllClusters` value is `"true"` or
`"yes"`, the cluster-tag query is never issued anywhere in the batch (so
the tag-lookup error branch is unreachable and an unset tag configuration
cannot prevent dispatch), the three-condition check reduces to the running
and agent tests, and a record resolving to a running node with a
disconnected agent still gets its notification dispatched. -/
theorem C8_monitor_all_bypasses_tag_check (env : AwsEnv) (cfg : Config)
    (hAll : pyLower cfg.check_all_clusters = "true"
      ∨ pyLower cfg.check_all_clusters = "yes") :
    (∀ node, eligibility env cfg node
        = ([], Except.ok (node.is_ec2_running && !node.is_agent_connected)))
    ∧ (∀ records, hasTagQuery (handler env cfg records).1 = false)
    ∧ (∀ p node tr rest,
        p.source = "aws.ecs" →
        p.detailType = "ECS Container Instance State Change" →
        p.agentConnected = JVal.jbool false → p.status = "ACTIVE" →
        mkECSNode env p.containerInstanceArn p.clusterArn = (tr, Except.ok node) →
        node.is_ec2_running = true → node.is_agent_connected = false →
        env.snsPublish cfg.email_notification (notificationSubject node.ec2_id)
            (notificationBody node.ec2_id node.cluster_arn) = Except.ok () →
        1 ≤ notifCount (handler env cfg (RawRecord.payload p :: rest)).1) := by
  have hm : monitorAll cfg = true := by
    rcases hAll with h | h <;> simp [monitorAll, h]
  refine ⟨fun node => eligibility_monitorAll env cfg node hm, ?_, ?_⟩
  · intro records
    rw [handler_fst]
    exact runBatchAux_no_tagQuery env cfg hm records []
  · intro p node tr rest hs ht hac hst hmk hrun hconn hsend
    have htr0 : notifCount tr = 0 := by
      have h1 := mkECSNode_fst env p.containerInstanceArn p.clusterArn
      rw [hmk] at h1
      rw [show tr = (fetch_ec2_details env p.containerInstanceArn p.clusterArn).1
        from h1]
      exact (fetch_trace_shape env p.containerInstanceArn p.clusterArn).1
    have hel : eligibility env cfg node = ([], Except.ok true) := by
      rw [eligibility_monitorAll env cfg node hm, hrun, hconn]
      rfl
    rw [handler_fst]
    unfold runBatchAux
    cases hsplit : rsplitAfterLastSlash node.cluster_arn with
    | none =>
        rw [processRecord_dispatch_noslash env cfg [] p node tr [] hs ht hac hst hmk
          hel (List.not_mem_nil node.ec2_id) hsend hsplit]
        dsimp only
        simp [notifCount_append, htr0, notifCount, dispatchEvent, Event.isNotif]
    | some shortName =>
        rw [processRecord_dispatch_ok env cfg [] p node tr [] shortName hs ht hac hst
          hmk hel (List.not_mem_nil node.ec2_id) hsend hsplit]
        dsimp only
        simp only [List.nil_append]
        rcases hrec : runBatchAux env cfg rest [node.ec2_id] with ⟨tr2, res⟩
        dsimp only
        simp [notifCount_append, htr0, notifCount, dispatchEvent, Event.isNotif,
          Event.isMetricLog]
        omega

/-- Witness for C8 at a concrete batch: with `checkAllClusters="True"` and
no tags configured, the tagged-cluster check is skipped and the alert for
the running, disconnected node is still dispatched. -/
theorem C8_witness :
    eligibility envA cfgAll ⟨"i-0123456789abcdef0", "running", false, "cl"⟩
        = ([], Except.ok true)
    ∧ hasTagQuery (handler envA cfgAll [RawRecord.payload pActive]).1 = false
    ∧ 1 ≤ notifCount (handler envA cfgAll [RawRecord.payload pActive]).1 := by
  have h := C8_monitor_all_bypasses_tag_check envA cfgAll (Or.inl rfl)
  refine ⟨?_, h.2.1 [RawRecord.payload pActive], ?_⟩
  · exact h.1 ⟨"i-0123456789abcdef0", "running", false, "cl"⟩
  · exact h.2.2 pActive
      ⟨"i-0123456789abcdef0", "running", false, pActive.clusterArn⟩
      [Event.ecsQuery pActive.clusterArn pActive.containerInstanceArn,
       Event.stateQuery "i-0123456789abcdef0"]
      [] rfl rfl rfl rfl rfl rfl rfl rfl

/-- The trace of a node construction never contains an SNS publish. -/
theorem mk_trace_notifCount (env : AwsEnv) (arn cluster : String)
    (tr : List Event) (res : Except String ECSNode)
    (hmk : mkECSNode env arn cluster = (tr, res)) : notifCount tr = 0 := by
  have h1 := mkECSNode_fst env arn cluster
  rw [hmk] at h1
  rw [show tr = (fetch_ec2_details env arn cluster).1 from h1]
  exact (fetch_trace_shape env arn cluster).1

/-- The trace of an eligibility evaluation never contains an SNS publish. -/
theorem elig_trace_notifCount (env : AwsEnv) (cfg : Config) (node : ECSNode)
    (etr : List Event) (res : Except String Bool)
    (hel : eligibility env cfg node = (etr, res)) : notifCount etr = 0 := by
  have h := eligibility_trace_shape env cfg node
  rw [hel] at h
  exact h

/-- C3: within one invocation, the dedup list starts empty (the handler
calls the loop with `[]`), one loop step either leaves the list unchanged
while dispatching nothing or appends exactly one identifier not yet present
while dispatching exactly one notification; a record resolving to an
eligible node whose identifier is already in the list is suppressed with no
dispatch; and a two-record batch whose records resolve to the same eligible
node identifier dispatches exactly one notification. -/
theorem C3_batch_dedup (env : AwsEnv) (cfg : Config) :
    (∀ processed r,
       ((processRecord env cfg processed r).2.1 = processed
          ∧ notifCount (processRecord env cfg processed r).1 = 0)
       ∨ (∃ id, id ∉ processed
            ∧ (processRecord env cfg processed r).2.1 = processed ++ [id]
            ∧ notifCount (processRecord env cfg processed r).1 = 1))
    ∧ (∀ processed p node tr etr,
        p.source = "aws.ecs" →
        p.detailType = "ECS Container Instance State Change" →
        p.agentConnected = JVal.jbool false → p.status = "ACTIVE" →
        mkECSNode env p.containerInstanceArn p.clusterArn = (tr, Except.ok node) →
        eligibility env cfg node = (etr, Except.ok true) →
        node.ec2_id ∈ processed →
        processRecord env cfg processed (RawRecord.payload p)
            = (tr ++ etr, processed, StepOutcome.next)
          ∧ notifCount (tr ++ etr) = 0)
    ∧ (∀ p1 p2 node1 node2 tr1 tr2 etr1 etr2 shortName,
        p1.source = "aws.ecs" →
        p1.detailType = "ECS Container Instance State Change" →
        p1.agentConnected = JVal.jbool false → p1.status = "ACTIVE" →
        p2.source = "aws.ecs" →
        p2.detailType = "ECS Container Instance State Change" →
        p2.agentConnected = JVal.jbool false → p2.status = "ACTIVE" →
        mkECSNode env p1.containerInstanceArn p1.clusterArn = (tr1, Except.ok node1) →
        mkECSNode env p2.containerInstanceArn p2.clusterArn = (tr2, Except.ok node2) →
        eligibility env cfg node1 = (etr1, Except.ok true) →
        eligibility env cfg node2 = (etr2, Except.ok true) →
        node2.ec2_id = node1.ec2_id →
        env.snsPublish cfg.email_notification (notificationSubject node1.ec2_id)
            (notificationBody node1.ec2_id node1.cluster_arn) = Except.ok () →
        rsplitAfterLastSlash node1.cluster_arn = some shortName →
        notifCount (handler env cfg
            [RawRecord.payload p1, RawRecord.payload p2]).1 = 1) := by
  refine ⟨?_, ?_, ?_⟩
  · intro processed r
    cases r with
    | malformed msg => exact Or.inl ⟨rfl, rfl⟩
    | emptyPayload => exact Or.inl ⟨rfl, rfl⟩
    | payload p =>
      by_cases h1 : p.source ≠ "aws.ecs"
        ∨ p.detailType ≠ "ECS Container Instance State Change"
      · rw [processRecord_unsupported env cfg processed p h1]
        exact Or.inl ⟨rfl, rfl⟩
      · have hs : p.source = "aws.ecs" := by
          by_contra hc; exact h1 (Or.inl hc)
        have ht : p.detailType = "ECS Container Instance State Change" := by
          by_contra hc; exact h1 (Or.inr hc)
        by_cases h2 : p.agentConnected ≠ JVal.jbool false ∨ p.status ≠ "ACTIVE"
        · rw [processRecord_stop env cfg p hs ht h2 processed]
          exact Or.inl ⟨rfl, rfl⟩
        · have hac : p.agentConnected = JVal.jbool false := by
            by_contra hc; exact h2 (Or.inl hc)
          have hst : p.status = "ACTIVE" := by
            by_contra hc; exact h2 (Or.inr hc)
          rcases hmk : mkECSNode env p.containerInstanceArn p.clusterArn with ⟨tr, res⟩
          have htr0 := mk_trace_notifCount env p.containerInstanceArn p.clusterArn tr
            res hmk
          cases res with
          | error e =>
            rw [processRecord_resolution_error env cfg processed p tr e hs ht hac
              hst hmk]
            exact Or.inl ⟨rfl, htr0⟩
          | ok node =>
            rcases hel : eligibility env cfg node with ⟨etr, res2⟩
            have hetr0 := elig_trace_notifCount env cfg node etr res2 hel
            cases res2 with
            | error e =>
              rw [processRecord_elig_error env cfg processed p node tr etr e hs ht
                hac hst hmk hel]
              exact Or.inl ⟨rfl, by simp [notifCount_append, htr0, hetr0]⟩
            | ok b =>
              cases b with
              | false =>
                rw [processRecord_skip env cfg processed p node tr etr hs ht hac hst
                  hmk hel]
                exact Or.inl ⟨rfl, by simp [notifCount_append, htr0, hetr0]⟩
              | true =>
                by_cases hmem : node.ec2_id ∈ processed
                · rw [processRecord_suppressed env cfg processed p node tr etr hs ht
                    hac hst hmk hel hmem]
                  exact Or.inl ⟨rfl, by simp [notifCount_append, htr0, hetr0]⟩
                · refine Or.inr ⟨node.ec2_id, hmem, ?_⟩
                  cases hpub : env.snsPublish cfg.email_notification
                      (notificationSubject node.ec2_id)
                      (notificationBody node.ec2_id node.cluster_arn) with
                  | error e =>
                    rw [processRecord_dispatch_senderr env cfg processed p node tr
                      etr e hs ht hac hst hmk hel hmem hpub]
                    exact ⟨rfl, by
                      simp only [notifCount_append, htr0, hetr0]
                      rfl⟩
                  | ok u =>
                    cases hsplit : rsplitAfterLastSlash node.cluster_arn with
                    | none =>
                      rw [processRecord_dispatch_noslash env cfg processed p node tr
                        etr hs ht hac hst hmk hel hmem hpub hsplit]
                      exact ⟨rfl, by
                        simp only [notifCount_append, htr0, hetr0]
                        rfl⟩
                    | some shortName =>
                      rw [processRecord_dispatch_ok env cfg processed p node tr etr
                        shortName hs ht hac hst hmk hel hmem hpub hsplit]
                      exact ⟨rfl, by
                        simp only [notifCount_append, htr0, hetr0]
                        rfl⟩
  · intro processed p node tr etr hs ht hac hst hmk hel hdup
    have htr0 := mk_trace_notifCount env p.containerInstanceArn p.clusterArn tr
      (Except.ok node) hmk
    have hetr0 := elig_trace_notifCount env cfg node etr (Except.ok true) hel
    exact ⟨processRecord_suppressed env cfg processed p node tr etr hs ht hac hst
      hmk hel hdup, by simp [notifCount_append, htr0, hetr0]⟩
  · intro p1 p2 node1 node2 tr1 tr2 etr1 etr2 shortName hs1 ht1 hac1 hst1 hs2 ht2
      hac2 hst2 hmk1 hmk2 hel1 hel2 hid hsend hsplit
    have htr1 := mk_trace_notifCount env p1.containerInstanceArn p1.clusterArn tr1
      (Except.ok node1) hmk1
    have htr2 := mk_trace_notifCount env p2.containerInstanceArn p2.clusterArn tr2
      (Except.ok node2) hmk2
    have hetr1 := elig_trace_notifCount env cfg node1 etr1 (Except.ok true) hel1
    have hetr2 := elig_trace_notifCount env cfg node2 etr2 (Except.ok true) hel2
    have hmem : node2.ec2_id ∈ ([] : List String) ++ [node1.ec2_id] := by
      rw [hid]; simp
    rw [handler_fst]
    unfold runBatchAux
    rw [processRecord_dispatch_ok env cfg [] p1 node1 tr1 etr1 shortName hs1 ht1
      hac1 hst1 hmk1 hel1 (List.not_mem_nil node1.ec2_id) hsend hsplit]
    dsimp only
    unfold runBatchAux
    rw [processRecord_suppressed env cfg ([] ++ [node1.ec2_id]) p2 node2 tr2 etr2
      hs2 ht2 hac2 hst2 hmk2 hel2 hmem]
    dsimp only
    unfold runBatchAux
    simp only [notifCount_append, htr1, htr2, hetr1, hetr2]
    rfl

/-- Witness for C3 at a concrete batch: the same payload twice resolves to
the same node and only one alert goes out. -/
theorem C3_witness :
    notifCount (handler envA cfgA
        [RawRecord.payload pActive, RawRecord.payload pActive]).1 = 1 := by
  refine (C3_batch_dedup envA cfgA).2.2 pActive pActive
    ⟨"i-0123456789abcdef0", "running", false, pActive.clusterArn⟩
    ⟨"i-0123456789abcdef0", "running", false, pActive.clusterArn⟩
    [Event.ecsQuery pActive.clusterArn pActive.containerInstanceArn,
     Event.stateQuery "i-0123456789abcdef0"]
    [Event.ecsQuery pActive.clusterArn pActive.containerInstanceArn,
     Event.stateQuery "i-0123456789abcdef0"]
    [Event.tagQuery pActive.clusterArn] [Event.tagQuery pActive.clusterArn]
    "prod" rfl rfl rfl rfl rfl rfl rfl rfl rfl rfl rfl rfl rfl rfl rfl

/-- C7: any `err` outcome of one loop step aborts the whole batch — the
loop stops at that record and returns exactly one error; the handler wraps
that single error into the uniform `"Error: execution error - ..."` failure
while keeping its message; and in particular an upstream failure of the
container-instance lookup surfaces as the doubly wrapped message carrying
the upstream code/message text, never as the raw upstream error alone. -/
theorem C7_fail_fast_wrapped (env : AwsEnv) (cfg : Config) :
    (∀ processed r rest tr p2 e,
        processRecord env cfg processed r = (tr, p2, StepOutcome.err e) →
        runBatchAux env cfg (r :: rest) processed = (tr, Except.error e))
    ∧ (∀ records tr e,
        runBatchAux env cfg records [] = (tr, Except.error e) →
        handler env cfg records = (tr, Except.error ("Error: execution error - " ++ e)))
    ∧ (∀ p rest e,
        p.source = "aws.ecs" →
        p.detailType = "ECS Container Instance State Change" →
        p.agentConnected = JVal.jbool false → p.status = "ACTIVE" →
        env.describeContainerInstance p.clusterArn p.containerInstanceArn
            = Except.error e →
        (handler env cfg (RawRecord.payload p :: rest)).2
          = Except.error ("Error: execution error - " ++ wrapFetchError e)) := by
  refine ⟨?_, ?_, ?_⟩
  · intro processed r rest tr p2 e hpr
    unfold runBatchAux
    rw [hpr]
  · intro records tr e hrun
    unfold handler
    rw [hrun]
  · intro p rest e hs ht hac hst hdesc
    have hfetch : fetch_ec2_details env p.containerInstanceArn p.clusterArn
        = ([Event.ecsQuery p.clusterArn p.containerInstanceArn],
           Except.error (wrapFetchError e)) := by
      unfold fetch_ec2_details
      rw [hdesc]
    have hmk : mkECSNode env p.containerInstanceArn p.clusterArn
        = ([Event.ecsQuery p.clusterArn p.containerInstanceArn],
           Except.error (wrapFetchError e)) := by
      unfold mkECSNode
      rw [hfetch]
    have hpr := processRecord_resolution_error env cfg [] p
      [Event.ecsQuery p.clusterArn p.containerInstanceArn] (wrapFetchError e)
      hs ht hac hst hmk
    unfold handler runBatchAux
    rw [hpr]

/-- Witness for C7: a concrete batch whose single record hits an upstream
`ClusterNotFoundException` aborts with the doubly wrapped message. -/
theorem C7_witness :
    (handler
        ⟨fun _ _ => Except.error "ClusterNotFoundException : Cluster not found.",
         fun _ => Except.ok "running", fun _ => Except.ok "Online",
         fun _ => Except.ok [], fun _ _ _ => Except.ok ()⟩
        cfgA [RawRecord.payload pActive]).2
      = Except.error ("Error: execution error - "
          ++ wrapFetchError "ClusterNotFoundException : Cluster not found.") := by
  exact (C7_fail_fast_wrapped _ cfgA).2.2 pActive []
    "ClusterNotFoundException : Cluster not found." rfl rfl rfl rfl rfl

/-- The payload of an agent-disconnected ACTIVE instance whose cluster
reference contains no path separator (a plain cluster short name, accepted
by the ECS APIs). -/
def p9 : Payload := { pActive with clusterArn := "mycluster" }

/-- Counterexample to C9 as stated: a concrete batch whose record carries
the cluster identifier `"mycluster"` (no `/`) reaches dispatch — exactly one
notification goes out — and then the short-name extraction fails instead of
being defined: no metric log record is emitted and the handler raises the
wrapped `IndexError` after the notification has already been sent. -/
theorem C9_counterexample :
    notifCount (handler envA cfgAll [RawRecord.payload p9]).1 = 1
    ∧ List.filter Event.isMetricLog (handler envA cfgAll [RawRecord.payload p9]).1
        = []
    ∧ (handler envA cfgAll [RawRecord.payload p9]).2
        = Except.error "Error: execution error - list index out of range" :=
  ⟨rfl, rfl, rfl⟩

/-- C9 (amended): for every dispatched alert whose cluster identifier
contains a path separator, the structured metric record emitted right after
the dispatch carries the segment of the cluster identifier after the last
`/` together with the node identifier; for a cluster identifier containing
no separator the extraction is undefined and the loop step turns into the
`IndexError` failure after the notification has already been dispatched. -/
theorem C9_metric_log_after_dispatch (env : AwsEnv) (cfg : Config)
    (processed : List String) (p : Payload) (node : ECSNode) (tr etr : List Event)
    (hs : p.source = "aws.ecs")
    (ht : p.detailType = "ECS Container Instance State Change")
    (hac : p.agentConnected = JVal.jbool false) (hst : p.status = "ACTIVE")
    (hmk : mkECSNode env p.containerInstanceArn p.clusterArn = (tr, Except.ok node))
    (hel : eligibility env cfg node = (etr, Except.ok true))
    (hnew : node.ec2_id ∉ processed)
    (hsend : env.snsPublish cfg.email_notification (notificationSubject node.ec2_id)
        (notificationBody node.ec2_id node.cluster_arn) = Except.ok ()) :
    (∀ shortName, rsplitAfterLastSlash node.cluster_arn = some shortName →
        processRecord env cfg processed (RawRecord.payload p)
          = (tr ++ etr ++ [dispatchEvent cfg node,
               Event.metricLog shortName node.ec2_id],
             processed ++ [node.ec2_id], StepOutcome.next))
    ∧ (rsplitAfterLastSlash node.cluster_arn = none →
        processRecord env cfg processed (RawRecord.payload p)
          = (tr ++ etr ++ [dispatchEvent cfg node],
             processed ++ [node.ec2_id],
             StepOutcome.err "list index out of range"))
    ∧ rsplitAfterLastSlash "arn:aws:ecs:us-east-1:111122223333:cluster/prod"
        = some "prod" := by
  refine ⟨?_, ?_, rfl⟩
  · intro shortName hsplit
    exact processRecord_dispatch_ok env cfg processed p node tr etr shortName
      hs ht hac hst hmk hel hnew hsend hsplit
  · intro hsplit
    exact processRecord_dispatch_noslash env cfg processed p node tr etr
      hs ht hac hst hmk hel hnew hsend hsplit

/-- Witness for the amended C9: at the concrete environment, the dispatched
alert for the cluster `.../cluster/prod` is followed by the metric record
`("prod", node id)`. -/
theorem C9_witness :
    processRecord envA cfgAll [] (RawRecord.payload pActive)
      = ([Event.ecsQuery pActive.clusterArn pActive.containerInstanceArn,
          Event.stateQuery "i-0123456789abcdef0",
          dispatchEvent cfgAll
            ⟨"i-0123456789abcdef0", "running", false, pActive.clusterArn⟩,
          Event.metricLog "prod" "i-0123456789abcdef0"],
         ["i-0123456789abcdef0"], StepOutcome.next) := by
  exact (C9_metric_log_after_dispatch envA cfgAll [] pActive
    ⟨"i-0123456789abcdef0", "running", false, pActive.clusterArn⟩
    [Event.ecsQuery pActive.clusterArn pActive.containerInstanceArn,
     Event.stateQuery "i-0123456789abcdef0"] []
    rfl rfl rfl rfl rfl rfl (List.not_mem_nil _) rfl).1 "prod" rfl

end EcsMonitor
